import Mathlib

/-!
Shallow embedding of `parmed/formats/registry.py`: the metaclass-based
parser registry (`FileFormatType.__init__`), the dispatcher (`load_file`)
and the keyword-adaptation helper (`_prune_argument`).

Modelling conventions:
  * Python dicts that only ever grow (`PARSER_REGISTRY`, `PARSER_ARGUMENTS`)
    are association lists in insertion order; iteration over `iteritems`
    is iteration over the list.
  * A handler class (`cls`) is a `Capability` record: `dctKeys` are the
    names defined in the class body (`dct`, used for the `'id_format' in
    dct` and `'extra_args' in dct` checks), while the `Option`-valued
    fields model attribute presence (`hasattr`), which may also come from
    a base class.
  * A Python callable's signature metadata is `PyFunc`: `varnames` models
    `__code__.co_varnames` (parameter names first, then locals) and
    `argcount` models `__code__.co_argcount`, so the declared parameters
    are `varnames.take argcount`, exactly the slice the source inspects.
  * Python `%`-formatting of strings is modelled for `%s` specifiers only
    (the only ones the source uses), including the `TypeError` it raises
    when the format string has more specifiers than arguments.
  * Exceptions become an error type `PyError`; `load_file` returns
    `Except PyError Invocation` where `Invocation` records which entry
    point of which handler was called and with which (pruned) keyword
    bag, since the parsers themselves are external to this module.
    Alongside the result, `load_file` returns the trace of handler names
    whose `id_format` predicate was actually invoked, so that claims
    about "identify was not called" are statements about the trace.
-/

/-- Python values carried in a keyword bag are opaque to the dispatcher;
we model them as naturals. -/
abbrev Kwargs := List (String × Nat)

/-- The errors the module can raise or propagate.  `typeError` carries the
argument list the Python `TypeError` was constructed with. -/
inductive PyError where
  | ioError (msg : String)
  | typeError (args : List String)
  | valueError (msg : String)
  | formatNotFound (msg : String)
  | keyError (key : String)
  | unicodeDecodeError
  | unicodeEncodeError
  | otherError (msg : String)
deriving DecidableEq, Repr

/-- Python `%s`-formatting over a character list: substitute each `%s`
with the next argument; raise the interpreter's `TypeError` messages when
the counts disagree (as `fmt % arg` with a single string argument does). -/
def pyFormat : List Char → List String → Except String (List Char)
  | [], [] => .ok []
  | [], _ :: _ => .error "not all arguments converted during string formatting"
  | '%' :: 's' :: rest, a :: as =>
    match pyFormat rest as with
    | .ok r => .ok (a.data ++ r)
    | .error e => .error e
  | '%' :: 's' :: _, [] => .error "not enough arguments for format string"
  | c :: rest, as =>
    match pyFormat rest as with
    | .ok r => .ok (c :: r)
    | .error e => .error e

/-- `fmt % args` on strings. -/
def pyFormatStr (fmt : String) (args : List String) : Except String String :=
  match pyFormat fmt.data args with
  | .ok r => .ok (String.mk r)
  | .error e => .error e

/-- Evaluate `ctor (fmt % args)`: if the formatting itself raises, the
raised error is the interpreter's `TypeError`, not `ctor`'s error. -/
def pyRaiseFmt (ctor : String → PyError) (fmt : String) (args : List String) : PyError :=
  match pyFormatStr fmt args with
  | .ok s => ctor s
  | .error m => .typeError [m]

/-- Signature metadata of a Python callable: `co_varnames` (parameters
first, locals after) and `co_argcount`. -/
structure PyFunc where
  varnames : List String
  argcount : Nat
deriving DecidableEq, Repr

/-- Outcome of calling a handler's `id_format` predicate. -/
inductive IdOutcome where
  | ok (b : Bool)
  | raise (e : PyError)
deriving DecidableEq, Repr

/-- A handler class as seen by the registry and the dispatcher. -/
structure Capability where
  /-- the names defined in the class body (`dct`) -/
  dctKeys : List String
  /-- the `id_format` attribute, when present (`hasattr`) -/
  id_format : Option (String → IdOutcome)
  /-- the `parse` attribute's signature, when present -/
  parse : Option PyFunc
  /-- the `open_old` attribute's signature, when present -/
  open_old : Option PyFunc
  /-- the `open` attribute's signature, when present -/
  «open» : Option PyFunc
  /-- the `__init__` signature (always present) -/
  init : PyFunc
  /-- the value of `dct['extra_args']` when `'extra_args' ∈ dct` -/
  extra_args : List String

/-- The module-level mutable state: `PARSER_REGISTRY` and
`PARSER_ARGUMENTS`, both insertion-ordered. -/
structure RegistryState where
  PARSER_REGISTRY : List (String × Capability)
  PARSER_ARGUMENTS : List (String × List String)

/-- `name in PARSER_REGISTRY` (dict key membership). -/
def RegistryState.hasName (st : RegistryState) (name : String) : Bool :=
  st.PARSER_REGISTRY.any (fun p => p.1 = name)

/-- `FileFormatType.__init__(cls, name, bases, dct)`: raise on a duplicate
name, then register `cls` (and its `extra_args`, defaulting to `()`) iff
`'id_format' in dct`.  Returns the raised error, if any, together with the
resulting module state (unchanged when an error is raised, and also when
the class declares no `id_format`). -/
def FileFormatType.init (name : String) (cls : Capability) (st : RegistryState) :
    Option PyError × RegistryState :=
  if st.hasName name then
    (some (pyRaiseFmt .valueError "Duplicate name %s in parser registry" [name]), st)
  else if "id_format" ∈ cls.dctKeys then
    (none,
      { PARSER_REGISTRY := st.PARSER_REGISTRY ++ [(name, cls)],
        PARSER_ARGUMENTS := st.PARSER_ARGUMENTS ++
          [(name, if "extra_args" ∈ cls.dctKeys then cls.extra_args else [])] })
  else (none, st)

/-- The filesystem / transport facts `load_file` consults: `os.path.exists`,
`os.access(·, os.R_OK)`, and `genopen` on URLs (`none` = opened fine,
`some e` = the transport error it raised). -/
structure FS where
  path_exists : String → Bool
  readable : String → Bool
  genopen : String → Option PyError

/-- Python `s.startswith(pre)`, computed on the character lists. -/
def startswith (s pre : String) : Bool :=
  pre.data.isPrefixOf s.data

/-- The URL test at the top of `load_file`. -/
def isURL (filename : String) : Bool :=
  startswith filename "http://" || startswith filename "https://" ||
    startswith filename "ftp://"

/-- The accessibility checks of `load_file`, performed before any
identification: URL open, existence, readability.  `none` means the scan
is reached. -/
def accessCheck (fs : FS) (filename : String) : Option PyError :=
  if isURL filename then
    fs.genopen filename
  else if ¬ fs.path_exists filename then
    some (pyRaiseFmt .ioError "%s does not exist" [filename])
  else if ¬ fs.readable filename then
    some (pyRaiseFmt .ioError "%s does not have read permissions set" [filename])
  else none

/-- Outcome of the `for name, cls in iteritems(PARSER_REGISTRY)` scan. -/
inductive ScanOutcome where
  | found (name : String) (cls : Capability)
  | nomatch
  | raised (e : PyError)

/-- The identification scan: skip entries without an `id_format`
attribute, break on the first `id_format(filename)` returning true,
swallow `UnicodeDecodeError` and continue, propagate any other error.
Also returns, in order, the names of the handlers whose `id_format` was
actually invoked. -/
def scanRegistry (filename : String) :
    List (String × Capability) → ScanOutcome × List String
  | [] => (.nomatch, [])
  | (name, cls) :: rest =>
    match cls.id_format with
    | none => scanRegistry filename rest
    | some idf =>
      match idf filename with
      | .ok true => (.found name cls, [name])
      | .ok false =>
        let (o, tr) := scanRegistry filename rest
        (o, name :: tr)
      | .raise .unicodeDecodeError =>
        let (o, tr) := scanRegistry filename rest
        (o, name :: tr)
      | .raise e => (.raised e, [name])

/-- The required-argument loop: return the raised error for the first
`arg in other_args` with `arg not in kwargs`, evaluating the source's
`TypeError('%s constructor expects %s keyword argument' % name, arg)`
expression faithfully (the `%` is applied to `name` alone, and `arg` is a
second constructor argument). -/
def checkRequired (name : String) (other_args : List String) (kwargs : Kwargs) :
    Option PyError :=
  match other_args with
  | [] => none
  | arg :: rest =>
    if kwargs.any (fun p => p.1 = arg) then checkRequired name rest kwargs
    else some
      (match pyFormatStr "%s constructor expects %s keyword argument" [name] with
       | .ok s => .typeError [s, arg]
       | .error m => .typeError [m])

/-- `_prune_argument(func, kwargs, keyword)`: if the keyword is in the bag
but not among the callable's declared parameters
(`co_varnames[:co_argcount]`), pop it. -/
def _prune_argument (func : PyFunc) (kwargs : Kwargs) (keyword : String) : Kwargs :=
  if kwargs.any (fun p => p.1 = keyword) then
    if keyword ∈ func.varnames.take func.argcount then kwargs
    else kwargs.filter (fun p => p.1 ≠ keyword)
  else kwargs

/-- The four `_prune_argument` calls `load_file` performs on the chosen
entry point, in source order. -/
def pruneAll (func : PyFunc) (kwargs : Kwargs) : Kwargs :=
  _prune_argument func
    (_prune_argument func
      (_prune_argument func
        (_prune_argument func kwargs "structure") "natom") "hasbox") "skip_bonds"

/-- Which entry point `load_file` ended up calling. -/
inductive EntryPoint where
  | parse
  | open_old
  | «open»
  | construct
deriving DecidableEq, Repr

/-- A record of the one call `load_file` makes into the chosen handler:
the entry point and the exact arguments handed to it. -/
structure Invocation where
  handler : String
  entry : EntryPoint
  filename : String
  args : List Nat
  kwargs : Kwargs
deriving DecidableEq, Repr

/-- The entry-point selection at the end of `load_file`: `parse`, else
`open_old`, else `open`, else the constructor; prune the four recognized
keywords against the chosen callable and call it. -/
def dispatch (cls : Capability) (name filename : String) (args : List Nat)
    (kwargs : Kwargs) : Invocation :=
  match cls.parse with
  | some f => ⟨name, .parse, filename, args, pruneAll f kwargs⟩
  | none =>
    match cls.open_old with
    | some f => ⟨name, .open_old, filename, args, pruneAll f kwargs⟩
    | none =>
      match cls.«open» with
      | some f => ⟨name, .«open», filename, args, pruneAll f kwargs⟩
      | none => ⟨name, .construct, filename, args, pruneAll cls.init kwargs⟩

/-- `load_file(filename, *args, **kwargs)`: accessibility checks, the
identification scan, required-argument validation, then dispatch.  The
second component is the trace of handlers whose `id_format` was invoked. -/
def load_file (fs : FS) (st : RegistryState) (filename : String)
    (args : List Nat) (kwargs : Kwargs) : Except PyError Invocation × List String :=
  match accessCheck fs filename with
  | some e => (.error e, [])
  | none =>
    match scanRegistry filename st.PARSER_REGISTRY with
    | (.raised e, tr) => (.error e, tr)
    | (.nomatch, tr) => (.error (.formatNotFound "Could not identify file format"), tr)
    | (.found name cls, tr) =>
      match st.PARSER_ARGUMENTS.lookup name with
      | none => (.error (.keyError name), tr)
      | some other_args =>
        match checkRequired name other_args kwargs with
        | some e => (.error e, tr)
        | none => (.ok (dispatch cls name filename args kwargs), tr)

/-!  Helper lemmas and concrete instances used by the verification below. -/

/-- Message computed by the `%s does not exist` raise. -/
theorem pyRaiseFmt_no_exist (a : String) :
    pyRaiseFmt .ioError "%s does not exist" [a] = .ioError (a ++ " does not exist") := rfl

/-- Message computed by the read-permission raise. -/
theorem pyRaiseFmt_no_read (a : String) :
    pyRaiseFmt .ioError "%s does not have read permissions set" [a] =
      .ioError (a ++ " does not have read permissions set") := rfl

/-- Message computed by the duplicate-name raise: one `%s`, one argument,
so the formatting succeeds. -/
theorem pyRaiseFmt_dup (a : String) :
    pyRaiseFmt .valueError "Duplicate name %s in parser registry" [a] =
      .valueError ("Duplicate name " ++ a ++ " in parser registry") := rfl

/-- The two-specifier format applied to the single value `name`, as the
required-argument raise does, fails inside the interpreter. -/
theorem pyFormatStr_missing_arg (a : String) :
    pyFormatStr "%s constructor expects %s keyword argument" [a] =
      .error "not enough arguments for format string" := rfl

/-- A registry entry does not (successfully) match `filename`: if its
`id_format` attribute exists, invoking it returns false or raises the
swallowed `UnicodeDecodeError`. -/
def notMatch (filename : String) (p : String × Capability) : Prop :=
  ∀ idf, p.2.id_format = some idf →
    idf filename = .ok false ∨ idf filename = .raise .unicodeDecodeError

/-- The names whose `id_format` the scan invokes when it walks all of `L`:
every entry carrying an `id_format` attribute, in order. -/
def invokedNames (L : List (String × Capability)) : List String :=
  (L.filter (fun p => p.2.id_format.isSome)).map Prod.fst

/-- A scan over entries none of which matches reaches the `for/else`
branch, having invoked every present `id_format`. -/
theorem scanRegistry_nomatch (filename : String) :
    ∀ L : List (String × Capability), (∀ p ∈ L, notMatch filename p) →
      scanRegistry filename L = (.nomatch, invokedNames L) := by
  intro L
  induction L with
  | nil => intro _; rfl
  | cons q rest ih =>
    intro hall
    obtain ⟨qn, qc⟩ := q
    have h0 := hall (qn, qc) (List.mem_cons_self _ _)
    have hrest := ih (fun r hr => hall r (List.mem_cons_of_mem _ hr))
    cases hc : qc.id_format with
    | none => simp [scanRegistry, hc, invokedNames, List.filter_cons, hrest]
    | some qidf =>
      rcases h0 qidf hc with hf | hf <;>
        simp [scanRegistry, hc, hf, invokedNames, List.filter_cons, hrest]

/-- Membership characterization of one `_prune_argument` call: a pair
survives iff it was in the bag and, when its key is the pruned keyword,
that keyword is among the callable's declared parameters. -/
theorem mem_prune (f : PyFunc) (kwargs : Kwargs) (key k : String) (v : Nat) :
    (k, v) ∈ _prune_argument f kwargs key ↔
      ((k, v) ∈ kwargs ∧ (k = key → key ∈ f.varnames.take f.argcount)) := by
  unfold _prune_argument
  by_cases hany : kwargs.any (fun p => p.1 = key) = true
  · rw [if_pos hany]
    by_cases hdecl : key ∈ f.varnames.take f.argcount
    · rw [if_pos hdecl]
      exact ⟨fun h => ⟨h, fun _ => hdecl⟩, fun h => h.1⟩
    · rw [if_neg hdecl]
      constructor
      · intro h
        have h' := List.mem_filter.mp h
        refine ⟨h'.1, fun hk => absurd hk ?_⟩
        simpa using h'.2
      · rintro ⟨h1, h2⟩
        refine List.mem_filter.mpr ⟨h1, ?_⟩
        have : k ≠ key := fun hk => hdecl (h2 hk)
        simpa using this
  · rw [if_neg hany]
    constructor
    · intro h
      refine ⟨h, fun hk => absurd ?_ hany⟩
      subst hk
      exact List.any_eq_true.mpr ⟨(k, v), h, by simp⟩
    · exact fun h => h.1

/-- `id_format` predicates for concrete witness handlers. -/
def idTrue : String → IdOutcome := fun _ => .ok true

/-- Always-false identification predicate. -/
def idFalse : String → IdOutcome := fun _ => .ok false

/-- Identification predicate raising `UnicodeDecodeError`. -/
def idDecErr : String → IdOutcome := fun _ => .raise .unicodeDecodeError

/-- Identification predicate raising `UnicodeEncodeError`. -/
def idEncErr : String → IdOutcome := fun _ => .raise .unicodeEncodeError

/-- `parse` signature declaring `filename` and `natom` (but none of the
other three recognized keywords). -/
def sigParse : PyFunc := ⟨["filename", "natom"], 2⟩

/-- A handler whose `id_format` always matches and whose `extra_args`
require `natom`. -/
def capFoo : Capability :=
  { dctKeys := ["id_format", "extra_args", "parse"]
    id_format := some idTrue
    parse := some sigParse
    open_old := none
    «open» := none
    init := ⟨["self", "fname"], 2⟩
    extra_args := ["natom"] }

/-- A handler that never matches. -/
def capNo : Capability := { capFoo with id_format := some idFalse, extra_args := [] }

/-- A handler whose `id_format` raises `UnicodeDecodeError`. -/
def capDec : Capability := { capFoo with id_format := some idDecErr, extra_args := [] }

/-- A handler whose `id_format` raises `UnicodeEncodeError`. -/
def capEnc : Capability := { capFoo with id_format := some idEncErr, extra_args := [] }

/-- A handler that always matches and requires nothing. -/
def capGood : Capability := { capFoo with extra_args := [] }

/-- A class that declares no `id_format` in its body. -/
def capNoId : Capability := { capFoo with dctKeys := ["parse"] }

/-- Filesystem in which every path exists and is readable. -/
def fsOK : FS := ⟨fun _ => true, fun _ => true, fun _ => none⟩

/-- Filesystem in which no path exists. -/
def fsGone : FS := ⟨fun _ => false, fun _ => true, fun _ => none⟩

/-- Filesystem in which paths exist but are unreadable. -/
def fsNoRead : FS := ⟨fun _ => true, fun _ => false, fun _ => none⟩

/-- Module state with the single handler `Foo` requiring `natom`. -/
def stFoo : RegistryState := ⟨[("Foo", capFoo)], [("Foo", ["natom"])]⟩

/-- Claim C1: the claim says a missing required keyword makes `load_file`
fail with an error naming the selected handler and the missing keyword.
The code does fail before invoking any entry point, but the raise
expression `TypeError('%s ... %s ...' % name, arg)` applies `%` to `name`
alone, so the interpreter's formatting `TypeError` is raised instead and
the message names neither the handler `Foo` nor the keyword `natom`;
supplying `natom` makes the same call succeed. -/
theorem claim_C1_missing_required_arg :
    load_file fsOK stFoo "tripos1.mol2" [] [] =
      (.error (.typeError ["not enough arguments for format string"]), ["Foo"]) ∧
    load_file fsOK stFoo "tripos1.mol2" [] [("natom", 31)] =
      (.ok ⟨"Foo", .parse, "tripos1.mol2", [], [("natom", 31)]⟩, ["Foo"]) := ⟨by rfl, by rfl⟩

/-- Claim C2 (counterexample): the claim says a decoding *or encoding*
error raised by `identify` is swallowed and the scan continues.  The
source's `except UnicodeDecodeError` does not catch `UnicodeEncodeError`:
with handler `Bad` raising an encoding error ahead of the always-matching
handler `Good`, the error is propagated to `load_file`'s caller and the
scan stops — `Good`'s `id_format` is never invoked (the trace is just
`["Bad"]`). -/
theorem claim_C2_counterexample :
    load_file fsOK ⟨[("Bad", capEnc), ("Good", capGood)], [("Bad", []), ("Good", [])]⟩
        "x" [] [] = (.error .unicodeEncodeError, ["Bad"]) := rfl

/-- Claim C2 (amended): only a `UnicodeDecodeError` raised by `id_format`
is swallowed: the handler is treated as a non-match and the scan continues
with the remaining entries (any other raised error propagates, as the
counterexample shows). -/
theorem claim_C2_decode_error_swallowed (filename name : String) (cls : Capability)
    (idf : String → IdOutcome) (rest : List (String × Capability))
    (hid : cls.id_format = some idf)
    (hdec : idf filename = .raise .unicodeDecodeError) :
    scanRegistry filename ((name, cls) :: rest) =
      ((scanRegistry filename rest).1, name :: (scanRegistry filename rest).2) := by
  simp [scanRegistry, hid, hdec]

/-- Claim C2 amended, evaluated: handler `Dec` raises a decode error, and
the scan goes on to select `Good`, with both invocations on the trace. -/
theorem claim_C2_decode_error_swallowed_witness :
    capDec.id_format = some idDecErr ∧
    idDecErr "x" = .raise .unicodeDecodeError ∧
    scanRegistry "x" [("Dec", capDec), ("Good", capGood)] =
      ((scanRegistry "x" [("Good", capGood)]).1,
       "Dec" :: (scanRegistry "x" [("Good", capGood)]).2) :=
  ⟨rfl, rfl, claim_C2_decode_error_swallowed "x" "Dec" capDec idDecErr
    [("Good", capGood)] rfl rfl⟩

/-- Claim C8: registering a name already present in `PARSER_REGISTRY`
raises `ValueError` (the duplicate-handler error) with a message naming
the duplicate, and leaves the module state unchanged. -/
theorem claim_C8_duplicate_name (st : RegistryState) (name : String) (cls : Capability)
    (h : st.hasName name = true) :
    FileFormatType.init name cls st =
      (some (.valueError ("Duplicate name " ++ name ++ " in parser registry")), st) := by
  rw [FileFormatType.init, if_pos h, pyRaiseFmt_dup]

/-- Claim C8, evaluated: registering a second `Foo` over `stFoo` fails
with the duplicate-name error and the state is unchanged. -/
theorem claim_C8_duplicate_name_witness :
    stFoo.hasName "Foo" = true ∧
    FileFormatType.init "Foo" capGood stFoo =
      (some (.valueError ("Duplicate name " ++ "Foo" ++ " in parser registry")), stFoo) :=
  ⟨rfl, claim_C8_duplicate_name stFoo "Foo" capGood rfl⟩

/-- Claim C9: when the name is new, a class whose body lacks `id_format`
is not registered (state unchanged, the name still absent, hence
unreachable from the scan), while a class declaring `id_format` is
appended to `PARSER_REGISTRY` with its declared `extra_args` recorded
(`()` when the body declares none). -/
theorem claim_C9_id_format_gates_registration (st : RegistryState) (name : String)
    (cls : Capability) (h : st.hasName name = false) :
    ("id_format" ∉ cls.dctKeys →
      FileFormatType.init name cls st = (none, st) ∧
      (FileFormatType.init name cls st).2.hasName name = false) ∧
    ("id_format" ∈ cls.dctKeys →
      FileFormatType.init name cls st =
        (none,
          ⟨st.PARSER_REGISTRY ++ [(name, cls)],
           st.PARSER_ARGUMENTS ++
             [(name, if "extra_args" ∈ cls.dctKeys then cls.extra_args else [])]⟩)) := by
  have hno : ¬ st.hasName name = true := by simp [h]
  constructor
  · intro hnot
    have heq : FileFormatType.init name cls st = (none, st) := by
      rw [FileFormatType.init, if_neg hno, if_neg hnot]
    exact ⟨heq, by rw [heq]; exact h⟩
  · intro hyes
    rw [FileFormatType.init, if_neg hno, if_pos hyes]

/-- Claim C9, evaluated: over the empty state, `capNoId` (no `id_format`
in its body) is not added, and `capFoo` (which declares one, with
`extra_args = ('natom',)`) is added with that requirement recorded. -/
theorem claim_C9_id_format_gates_registration_witness :
    (RegistryState.mk [] []).hasName "Foo" = false ∧
    (("id_format" ∉ capNoId.dctKeys →
      FileFormatType.init "Foo" capNoId ⟨[], []⟩ = (none, ⟨[], []⟩) ∧
      (FileFormatType.init "Foo" capNoId ⟨[], []⟩).2.hasName "Foo" = false) ∧
     ("id_format" ∈ capNoId.dctKeys →
      FileFormatType.init "Foo" capNoId ⟨[], []⟩ =
        (none,
          ⟨[("Foo", capNoId)],
           [("Foo", if "extra_args" ∈ capNoId.dctKeys then capNoId.extra_args else [])]⟩))) :=
  ⟨rfl, by
    have h := claim_C9_id_format_gates_registration ⟨[], []⟩ "Foo" capNoId rfl
    simpa using h⟩

/-- Claim C10: the duplicate-name check precedes the `id_format` check:
even a class whose body lacks `id_format` (and so would never have been
added) makes a registration under an existing name fail with the
duplicate-name error, the state unchanged. -/
theorem claim_C10_duplicate_check_first (st : RegistryState) (name : String)
    (cls : Capability) (h : st.hasName name = true)
    (_hno : "id_format" ∉ cls.dctKeys) :
    FileFormatType.init name cls st =
      (some (.valueError ("Duplicate name " ++ name ++ " in parser registry")), st) := by
  rw [FileFormatType.init, if_pos h, pyRaiseFmt_dup]

/-- Claim C10, evaluated: `capNoId` registered under the taken name `Foo`
still fails with the duplicate-name error. -/
theorem claim_C10_duplicate_check_first_witness :
    stFoo.hasName "Foo" = true ∧ "id_format" ∉ capNoId.dctKeys ∧
    FileFormatType.init "Foo" capNoId stFoo =
      (some (.valueError ("Duplicate name " ++ "Foo" ++ " in parser registry")), stFoo) :=
  ⟨rfl, by decide, claim_C10_duplicate_check_first stFoo "Foo" capNoId rfl (by decide)⟩

/-- Every entry of the skipped prefix of a scan: helper for the witness
registries built from the single non-matching handler `No`. -/
theorem notMatch_capNo (filename : String) (p : String × Capability)
    (hp : p ∈ [("No", capNo)]) : notMatch filename p := by
  simp only [List.mem_singleton] at hp
  subst hp
  intro g hg
  have hg' : (some idFalse : Option (String → IdOutcome)) = some g := hg
  injection hg' with h
  exact Or.inl (h ▸ rfl)

/-- A scan whose prefix contains no match selects the first matching
entry, invoking exactly the prefix's present `id_format`s and that
entry's, and nothing after it. -/
theorem scanRegistry_found (filename name : String) (cls : Capability)
    (idf : String → IdOutcome) (hid : cls.id_format = some idf)
    (htrue : idf filename = .ok true) :
    ∀ pre : List (String × Capability), (∀ p ∈ pre, notMatch filename p) →
      ∀ post, scanRegistry filename (pre ++ (name, cls) :: post) =
        (.found name cls, invokedNames pre ++ [name]) := by
  intro pre
  induction pre with
  | nil => intro _ post; simp [scanRegistry, hid, htrue, invokedNames]
  | cons q rest ih =>
    intro hall post
    obtain ⟨qn, qc⟩ := q
    have h0 := hall (qn, qc) (List.mem_cons_self _ _)
    have hr := ih (fun r hrm => hall r (List.mem_cons_of_mem _ hrm)) post
    cases hc : qc.id_format with
    | none => simp [scanRegistry, hc, invokedNames, List.filter_cons, hr]
    | some qidf =>
      rcases h0 qidf hc with hf | hf <;>
        simp [scanRegistry, hc, hf, invokedNames, List.filter_cons, hr]

/-- Claim C3: a keyword/value pair reaches the chosen entry point iff it
was in the call's bag and, when its key is one of the four recognized
names (`structure`, `natom`, `hasbox`, `skip_bonds`), the entry point's
declared parameters (`co_varnames[:co_argcount]`) contain that exact
name; every other pair passes through `pruneAll` unmodified. -/
theorem claim_C3_keyword_pruning (f : PyFunc) (kwargs : Kwargs) (k : String) (v : Nat) :
    (k, v) ∈ pruneAll f kwargs ↔
      ((k, v) ∈ kwargs ∧
        ((k = "structure" ∨ k = "natom" ∨ k = "hasbox" ∨ k = "skip_bonds") →
          k ∈ f.varnames.take f.argcount)) := by
  simp only [pruneAll, mem_prune]
  constructor
  · rintro ⟨⟨⟨⟨hm, h1⟩, h2⟩, h3⟩, h4⟩
    refine ⟨hm, ?_⟩
    rintro (rfl | rfl | rfl | rfl)
    · exact h1 rfl
    · exact h2 rfl
    · exact h3 rfl
    · exact h4 rfl
  · rintro ⟨hm, h⟩
    refine ⟨⟨⟨⟨hm, ?_⟩, ?_⟩, ?_⟩, ?_⟩ <;> rintro rfl
    · exact h (Or.inl rfl)
    · exact h (Or.inr (Or.inl rfl))
    · exact h (Or.inr (Or.inr (Or.inl rfl)))
    · exact h (Or.inr (Or.inr (Or.inr rfl)))

/-- Claim C3, evaluated: against `sigParse` (which declares `natom` but
not `hasbox`), the pair `("hasbox", 1)` is dropped exactly as the
characterization states. -/
theorem claim_C3_keyword_pruning_witness :
    ("hasbox", 1) ∈ pruneAll sigParse [("natom", 7), ("hasbox", 1)] ↔
      (("hasbox", 1) ∈ [("natom", 7), ("hasbox", 1)] ∧
        (("hasbox" = "structure" ∨ "hasbox" = "natom" ∨ "hasbox" = "hasbox" ∨
          "hasbox" = "skip_bonds") →
          "hasbox" ∈ sigParse.varnames.take sigParse.argcount)) :=
  claim_C3_keyword_pruning sigParse [("natom", 7), ("hasbox", 1)] "hasbox" 1

/-- Claim C4: once the scan has selected a handler and the required
arguments are satisfied, `load_file` performs exactly the one invocation
`dispatch` describes, and `dispatch` picks `parse` when it exists (in
particular when `open` also exists), else `open_old`, else `open`, else
direct construction. -/
theorem claim_C4_entry_point_priority (fs : FS) (st : RegistryState)
    (filename : String) (args : List Nat) (kwargs : Kwargs) (name : String)
    (cls : Capability) (tr : List String) (oa : List String)
    (hacc : accessCheck fs filename = none)
    (hscan : scanRegistry filename st.PARSER_REGISTRY = (.found name cls, tr))
    (hargs : st.PARSER_ARGUMENTS.lookup name = some oa)
    (hreq : checkRequired name oa kwargs = none) :
    load_file fs st filename args kwargs =
      (.ok (dispatch cls name filename args kwargs), tr) ∧
    (∀ f, cls.parse = some f →
      (dispatch cls name filename args kwargs).entry = .parse) ∧
    (cls.parse = none → ∀ f, cls.open_old = some f →
      (dispatch cls name filename args kwargs).entry = .open_old) ∧
    (cls.parse = none → cls.open_old = none → ∀ f, cls.«open» = some f →
      (dispatch cls name filename args kwargs).entry = .«open») ∧
    (cls.parse = none → cls.open_old = none → cls.«open» = none →
      (dispatch cls name filename args kwargs).entry = .construct) := by
  refine ⟨?_, ?_, ?_, ?_, ?_⟩
  · simp [load_file, hacc, hscan, hargs, hreq]
  · intro f hf; simp [dispatch, hf]
  · intro h1 f hf; simp [dispatch, h1, hf]
  · intro h1 h2 f hf; simp [dispatch, h1, h2, hf]
  · intro h1 h2 h3; simp [dispatch, h1, h2, h3]

/-- Claim C4, evaluated: over `stFoo` (whose handler has `parse`), the
call performs the single `parse` invocation. -/
theorem claim_C4_entry_point_priority_witness :
    accessCheck fsOK "x" = none ∧
    scanRegistry "x" stFoo.PARSER_REGISTRY = (.found "Foo" capFoo, ["Foo"]) ∧
    stFoo.PARSER_ARGUMENTS.lookup "Foo" = some ["natom"] ∧
    checkRequired "Foo" ["natom"] [("natom", 7)] = none ∧
    load_file fsOK stFoo "x" [] [("natom", 7)] =
      (.ok (dispatch capFoo "Foo" "x" [] [("natom", 7)]), ["Foo"]) :=
  ⟨rfl, rfl, rfl, rfl,
    (claim_C4_entry_point_priority fsOK stFoo "x" [] [("natom", 7)] "Foo" capFoo
      ["Foo"] ["natom"] rfl rfl rfl rfl).1⟩

/-- Claim C5: the scan selects the first descriptor whose `id_format`
returns true and stops: the complete invocation trace is the prefix's
present `id_format`s followed by the selected name — nothing after the
match is invoked, whatever `post` contains — and any successful
`load_file` over such a registry performs at most the single invocation
of the selected handler. -/
theorem claim_C5_first_match_wins (filename name : String) (cls : Capability)
    (idf : String → IdOutcome) (pre post : List (String × Capability))
    (hpre : ∀ p ∈ pre, notMatch filename p)
    (hid : cls.id_format = some idf) (htrue : idf filename = .ok true) :
    scanRegistry filename (pre ++ (name, cls) :: post) =
      (.found name cls, invokedNames pre ++ [name]) ∧
    ∀ (fs : FS) (args : List Nat) (kwargs : Kwargs)
      (ARGS : List (String × List String)),
      accessCheck fs filename = none →
      (load_file fs ⟨pre ++ (name, cls) :: post, ARGS⟩ filename args kwargs).2 =
        invokedNames pre ++ [name] ∧
      ∀ inv,
        (load_file fs ⟨pre ++ (name, cls) :: post, ARGS⟩ filename args kwargs).1 =
          .ok inv →
        inv = dispatch cls name filename args kwargs := by
  have hscan := scanRegistry_found filename name cls idf hid htrue pre hpre post
  refine ⟨hscan, ?_⟩
  intro fs args kwargs ARGS hacc
  cases hl : ARGS.lookup name with
  | none => simp [load_file, hacc, hscan, hl]
  | some oa =>
    cases hr : checkRequired name oa kwargs with
    | none =>
      refine ⟨by simp [load_file, hacc, hscan, hl, hr], ?_⟩
      intro inv hinv
      simp [load_file, hacc, hscan, hl, hr] at hinv
      exact hinv.symm
    | some e => simp [load_file, hacc, hscan, hl, hr]

/-- Claim C5, evaluated: with a non-matching `No` ahead of `Foo` and a
would-also-match `Late` behind it, the scan selects `Foo` and the trace
is `["No", "Foo"]` — `Late` is never consulted. -/
theorem claim_C5_first_match_wins_witness :
    (∀ p ∈ [("No", capNo)], notMatch "x" p) ∧
    scanRegistry "x" ([("No", capNo)] ++ ("Foo", capFoo) :: [("Late", capGood)]) =
      (.found "Foo" capFoo, ["No", "Foo"]) :=
  ⟨fun p hp => notMatch_capNo "x" p hp,
   (claim_C5_first_match_wins "x" "Foo" capFoo idTrue [("No", capNo)]
     [("Late", capGood)] (fun p hp => notMatch_capNo "x" p hp) rfl rfl).1⟩

/-- Claim C6: when the path is accessible and no registered handler
matches (each present `id_format` returns false or raises the swallowed
decode error), `load_file` fails with `FormatNotFound` after invoking
every present `id_format`, and no entry point is invoked (the result
carries no `Invocation`). -/
theorem claim_C6_format_not_found (fs : FS) (st : RegistryState) (filename : String)
    (args : List Nat) (kwargs : Kwargs)
    (hacc : accessCheck fs filename = none)
    (hall : ∀ p ∈ st.PARSER_REGISTRY, notMatch filename p) :
    load_file fs st filename args kwargs =
      (.error (.formatNotFound "Could not identify file format"),
       invokedNames st.PARSER_REGISTRY) := by
  have hscan := scanRegistry_nomatch filename st.PARSER_REGISTRY hall
  simp [load_file, hacc, hscan]

/-- Claim C6, evaluated: a registry holding only the never-matching `No`
makes the call fail with `FormatNotFound` after the full scan. -/
theorem claim_C6_format_not_found_witness :
    accessCheck fsOK "x" = none ∧
    load_file fsOK ⟨[("No", capNo)], [("No", [])]⟩ "x" [] [] =
      (.error (.formatNotFound "Could not identify file format"), ["No"]) :=
  ⟨rfl, claim_C6_format_not_found fsOK ⟨[("No", capNo)], [("No", [])]⟩ "x" [] [] rfl
    (fun p hp => notMatch_capNo "x" p hp)⟩

/-- Claim C7: for a non-URL path, a nonexistent file raises the
does-not-exist `IOError` and an unreadable file the permission `IOError`,
in both cases with an empty invocation trace: no `id_format` was
consulted. -/
theorem claim_C7_access_checks_first (fs : FS) (st : RegistryState) (filename : String)
    (args : List Nat) (kwargs : Kwargs) (hurl : isURL filename = false) :
    (fs.path_exists filename = false →
      load_file fs st filename args kwargs =
        (.error (.ioError (filename ++ " does not exist")), [])) ∧
    (fs.path_exists filename = true → fs.readable filename = false →
      load_file fs st filename args kwargs =
        (.error (.ioError (filename ++ " does not have read permissions set")), [])) := by
  constructor
  · intro hex
    have hacc : accessCheck fs filename =
        some (.ioError (filename ++ " does not exist")) := by
      rw [accessCheck, if_neg (by simp [hurl]), if_pos (by simp [hex]),
        pyRaiseFmt_no_exist]
    simp [load_file, hacc]
  · intro hex hread
    have hacc : accessCheck fs filename =
        some (.ioError (filename ++ " does not have read permissions set")) := by
      rw [accessCheck, if_neg (by simp [hurl]), if_neg (by simp [hex]),
        if_pos (by simp [hread]), pyRaiseFmt_no_read]
    simp [load_file, hacc]

/-- Claim C7, evaluated: a nonexistent local path fails with the
does-not-exist error and an empty trace. -/
theorem claim_C7_access_checks_first_witness :
    isURL "nosuch.pdb" = false ∧ fsGone.path_exists "nosuch.pdb" = false ∧
    load_file fsGone stFoo "nosuch.pdb" [] [] =
      (.error (.ioError ("nosuch.pdb" ++ " does not exist")), []) :=
  ⟨rfl, rfl,
    (claim_C7_access_checks_first fsGone stFoo "nosuch.pdb" [] [] rfl).1 rfl⟩
